import Mathlib

/-!
Verification development for the browser-use-web-ui API service.

This file gives a shallow embedding of the two source modules

  * `src/api/security/api_key.py` — the `APIKeyManager` class holding the
    credential store and its lifecycle operations, and
  * `src/api/api_service.py` — the task orchestration layer, in particular
    `create_task` and the background `execute_task` unit,

and proves (or refutes) the specification claims about them.

Modelling conventions: `datetime` timestamps are integers (an abstract count
of seconds); `timedelta(days=d)` is `d * dayLen`; Python dictionaries keyed by
strings are functions `String → Option _`; the random token suffix drawn by
`secrets.token_urlsafe` is passed in as an explicit argument; values that may
be raised by external collaborators (config loader, LLM factory, browser,
agent) are supplied through an explicit environment record.
-/

namespace BUApi

/-! ### Credential store (`api_key.py`) -/

/-- Seconds in one day: the length of `timedelta(days=1)`. -/
def dayLen : Int := 86400

/-- The per-key dictionary stored in `APIKeyManager.api_keys[key]`:
`created_at`, `expires_at`, `is_active`, `last_used`, `usage_count`. -/
structure KeyData where
  createdAt : Int
  expiresAt : Int
  isActive : Bool
  lastUsed : Option Int
  usageCount : Nat
deriving Repr, DecidableEq

/-- The `api_keys` dictionary of `APIKeyManager`, as a partial map. -/
abbrev KeyStore := String → Option KeyData

/-- Dictionary assignment `api_keys[key] = data`. -/
def storeSet (s : KeyStore) (k : String) (v : KeyData) : KeyStore :=
  fun k' => if k' = k then some v else s k'

/-- The store of a freshly constructed `APIKeyManager`. -/
def emptyStore : KeyStore := fun _ => none

/-- `days = 30 if expires_in_days is None else expires_in_days`. -/
def daysOf (expiresInDays : Option Int) : Int :=
  match expiresInDays with
  | none => 30
  | some d => d

/-- `APIKeyManager.generate_key`: the fresh random suffix is an explicit
argument `sfx`; the produced key is the fixed leading tag `"bua_"` followed by
the suffix. Returns the updated store and the new key. -/
def generateKey (s : KeyStore) (sfx : String) (expiresInDays : Option Int)
    (now : Int) : KeyStore × String :=
  let key := "bua_" ++ sfx
  let expiration := now + daysOf expiresInDays * dayLen
  (storeSet s key
    { createdAt := now, expiresAt := expiration, isActive := true,
      lastUsed := none, usageCount := 0 }, key)

/-- `APIKeyManager.validate_key`: unknown key, inactive key, or expired key
return `false` (an expired key is additionally deactivated); otherwise the
usage statistics are updated and the result is `true`. Returns the result
together with the updated store. -/
def validateKey (s : KeyStore) (apiKey : String) (now : Int) : Bool × KeyStore :=
  match s apiKey with
  | none => (false, s)
  | some d =>
    if !d.isActive then
      (false, s)
    else if now > d.expiresAt then
      (false, storeSet s apiKey { d with isActive := false })
    else
      (true, storeSet s apiKey
        { d with lastUsed := some now, usageCount := d.usageCount + 1 })

/-- `APIKeyManager.revoke_key`: deactivate the key if present; return whether
it was present. -/
def revokeKey (s : KeyStore) (apiKey : String) : Bool × KeyStore :=
  match s apiKey with
  | some d => (true, storeSet s apiKey { d with isActive := false })
  | none => (false, s)

/-- `APIKeyManager.rotate_key`: if `validate_key(old_key)` succeeds, generate
a new key (the call `generate_key()` uses the declared default
`expires_in_days = 30`) and revoke the old one; otherwise return nothing. -/
def rotateKey (s : KeyStore) (oldKey : String) (sfx : String) (now : Int) :
    Option String × KeyStore :=
  let v := validateKey s oldKey now
  if v.fst then
    let g := generateKey v.snd sfx (some 30) now
    let r := revokeKey g.fst oldKey
    (some g.snd, r.snd)
  else
    (none, v.snd)

/-- `n` consecutive `validate_key` calls on the same key at the same time. -/
def validateN (k : String) (now : Int) : Nat → KeyStore → KeyStore
  | 0, s => s
  | n + 1, s => validateN k now n (validateKey s k now).snd

/-! ### Basic store lemmas -/

theorem storeSet_self (s : KeyStore) (k : String) (v : KeyData) :
    storeSet s k v k = some v := by
  simp [storeSet]

theorem storeSet_ne (s : KeyStore) (k k' : String) (v : KeyData) (h : k' ≠ k) :
    storeSet s k v k' = s k' := by
  simp [storeSet, h]

/-- A `validate_key` call never adds or removes entries. -/
theorem validateKey_snd_isSome (s : KeyStore) (k : String) (now : Int)
    (k' : String) : ((validateKey s k now).snd k').isSome = (s k').isSome := by
  unfold validateKey
  cases h : s k with
  | none => rfl
  | some d =>
    by_cases ha : d.isActive
    · by_cases he : now > d.expiresAt
      · simp only [ha, Bool.not_true, Bool.false_eq_true, if_false, if_pos he]
        by_cases hk : k' = k
        · subst hk; simp [storeSet, h]
        · simp [storeSet, hk]
      · simp only [ha, Bool.not_true, Bool.false_eq_true, if_false, if_neg he]
        by_cases hk : k' = k
        · subst hk; simp [storeSet, h]
        · simp [storeSet, hk]
    · simp only [ha]
      simp

/-- C3 (claim side): validity of a credential as the specification states it —
it exists, `isActive` is true, and `now ≤ expiresAt`. -/
def specValid (s : KeyStore) (tok : String) (now : Int) : Prop :=
  ∃ d, s tok = some d ∧ d.isActive = true ∧ now ≤ d.expiresAt

/-- C3: `validate` fails closed — it returns false for an unknown, inactive,
or expired token (the last with no prior revocation needed) — and returns
true exactly when the credential exists, `isActive` is true, and
`now ≤ expiresAt`, evaluated at validation time. -/
theorem validate_fails_closed (s : KeyStore) (tok : String) (now : Int) :
    (validateKey s tok now).fst = true ↔ specValid s tok now := by
  unfold validateKey specValid
  cases h : s tok with
  | none => simp
  | some d =>
    by_cases ha : d.isActive
    · by_cases he : now > d.expiresAt
      · simp only [ha, Bool.not_true, Bool.false_eq_true, if_false, if_pos he]
        simp only [Bool.false_eq_true, false_iff]
        rintro ⟨d', hd', _, hle⟩
        cases hd'
        omega
      · simp only [ha, Bool.not_true, Bool.false_eq_true, if_false, if_neg he]
        simp only [true_iff]
        exact ⟨d, rfl, ha, by omega⟩
    · simp only [Bool.not_eq_true] at ha
      simp [ha]

/-- A successful `validate_key` call: result `true`, and the store gains the
updated usage statistics at the key. -/
theorem validateKey_success_step (s : KeyStore) (k : String) (now : Int)
    (d : KeyData) (h : s k = some d) (ha : d.isActive = true)
    (he : now ≤ d.expiresAt) :
    (validateKey s k now).fst = true ∧
    (validateKey s k now).snd =
      storeSet s k { d with lastUsed := some now, usageCount := d.usageCount + 1 } := by
  unfold validateKey
  rw [h]
  simp only [ha, Bool.not_true, Bool.false_eq_true, if_false,
    if_neg (by omega : ¬ now > d.expiresAt)]
  exact ⟨by trivial, by trivial⟩

/-- A `validate_key` call on a known inactive key returns `false`. -/
theorem validateKey_inactive (s : KeyStore) (k : String) (now : Int)
    (d : KeyData) (h : s k = some d) (ha : d.isActive = false) :
    (validateKey s k now).fst = false := by
  unfold validateKey
  rw [h]
  simp [ha]

/-- A `validate_key` call on a known active key strictly past its expiry
returns `false`. -/
theorem validateKey_expired (s : KeyStore) (k : String) (now : Int)
    (d : KeyData) (h : s k = some d) (ha : d.isActive = true)
    (he : d.expiresAt < now) :
    (validateKey s k now).fst = false := by
  unfold validateKey
  rw [h]
  simp only [ha, Bool.not_true, Bool.false_eq_true, if_false,
    if_pos (by omega : now > d.expiresAt)]

/-- Iterated successful validation: starting from a live credential, `n`
validations keep it live, add `n` to the usage counter, and stamp
`lastUsed` once at least one call happened. -/
theorem validateN_tracking (k : String) (now : Int) :
    ∀ (n : Nat) (s : KeyStore) (d : KeyData), s k = some d →
      d.isActive = true → now ≤ d.expiresAt →
      ∃ d', validateN k now n s k = some d' ∧
        d'.usageCount = d.usageCount + n ∧ d'.isActive = true ∧
        d'.expiresAt = d.expiresAt ∧
        d'.lastUsed = (if n = 0 then d.lastUsed else some now) := by
  intro n
  induction n with
  | zero =>
    intro s d h ha he
    exact ⟨d, h, by simp, ha, rfl, by simp⟩
  | succ m ih =>
    intro s d h ha he
    obtain ⟨hres, hsnd⟩ := validateKey_success_step s k now d h ha he
    have hstore : (validateKey s k now).snd k =
        some { d with lastUsed := some now, usageCount := d.usageCount + 1 } := by
      rw [hsnd, storeSet_self]
    obtain ⟨d', hd', hcount, hact, hexp, hlast⟩ :=
      ih (validateKey s k now).snd _ hstore ha he
    have hcount2 : d'.usageCount = d.usageCount + 1 + m := hcount
    have hexp2 : d'.expiresAt = d.expiresAt := hexp
    have hlast2 : d'.lastUsed = (if m = 0 then some now else some now) := hlast
    refine ⟨d', ?_, by omega, hact, hexp2, ?_⟩
    · simpa [validateN] using hd'
    · simp only [ite_self] at hlast2
      simp [hlast2]

/-- C7: a credential starts with `usageCount = 0` at issuance; `n` successful
validations on a still-valid credential leave `usageCount = n` (each call
returning true and stamping `lastUsedAt`), and the store after them still
validates; any `validate` call that returns false changes no usage counter. -/
theorem usage_count_tracking (s0 : KeyStore) (sfx : String) (ttl : Option Int)
    (t now : Int) (n : Nat) (hval : now ≤ t + daysOf ttl * dayLen) :
    (∃ d0, (generateKey s0 sfx ttl t).fst (generateKey s0 sfx ttl t).snd = some d0 ∧
      d0.usageCount = 0 ∧ d0.lastUsed = none) ∧
    (∃ d', (validateN (generateKey s0 sfx ttl t).snd now n
        (generateKey s0 sfx ttl t).fst) (generateKey s0 sfx ttl t).snd = some d' ∧
      d'.usageCount = n ∧
      (validateKey (validateN (generateKey s0 sfx ttl t).snd now n
        (generateKey s0 sfx ttl t).fst) (generateKey s0 sfx ttl t).snd now).fst = true ∧
      (0 < n → d'.lastUsed = some now)) ∧
    (∀ (s : KeyStore) (k : String), (validateKey s k now).fst = false →
      ∀ k', ((validateKey s k now).snd k').map KeyData.usageCount =
        (s k').map KeyData.usageCount) := by
  have hgen : (generateKey s0 sfx ttl t).fst (generateKey s0 sfx ttl t).snd =
      some { createdAt := t, expiresAt := t + daysOf ttl * dayLen,
             isActive := true, lastUsed := none, usageCount := 0 } :=
    storeSet_self ..
  refine ⟨⟨_, hgen, rfl, rfl⟩, ?_, ?_⟩
  · obtain ⟨d', hd', hcount, hact, hexp, hlast⟩ :=
      validateN_tracking (generateKey s0 sfx ttl t).snd now n
        (generateKey s0 sfx ttl t).fst _ hgen rfl hval
    have hexp2 : d'.expiresAt = t + daysOf ttl * dayLen := hexp
    refine ⟨d', hd', by simpa using hcount, ?_, ?_⟩
    · exact (validateKey_success_step _ _ now d' hd' hact (by omega)).1
    · intro hn
      have : n ≠ 0 := by omega
      simpa [this] using hlast
  · intro s k hfail k'
    unfold validateKey at hfail ⊢
    cases h : s k with
    | none => simp [h]
    | some d =>
      rw [h] at hfail
      by_cases ha : d.isActive
      · by_cases he2 : now > d.expiresAt
        · simp only [h, ha, Bool.not_true, Bool.false_eq_true, if_false,
            if_pos he2]
          by_cases hk : k' = k
          · subst hk
            rw [storeSet_self, h]
            rfl
          · rw [storeSet_ne _ _ _ _ hk]
        · simp only [ha, Bool.not_true, Bool.false_eq_true, if_false,
            if_neg he2] at hfail
          cases hfail
      · simp only [Bool.not_eq_true] at ha
        simp [h, ha]

/-- C7 witness: issue a key at time 0 with a 30-day TTL in the empty store,
validate it twice at time 0; its usage count is then exactly 2. -/
theorem usage_count_tracking_witness :
    ((validateN (generateKey emptyStore "k0" (some 30) 0).snd 0 2
        (generateKey emptyStore "k0" (some 30) 0).fst)
      (generateKey emptyStore "k0" (some 30) 0).snd).map KeyData.usageCount =
      some 2 := by
  obtain ⟨h0, ⟨d', hd', hcount, hval2, hlast⟩, hfail⟩ :=
    usage_count_tracking emptyStore "k0" (some 30) 0 0 2
      (by norm_num [daysOf, dayLen])
  rw [hd']
  simp [hcount]

/-- C8 counterexample: issue a key with `expires_in_days = 0` at time 0; a
`validate` call at the very same instant returns `true`, because expiry is
the strict comparison `now > expires_at`. The claim says every validate call
immediately after issuance returns false. -/
theorem zero_ttl_validate_at_issuance :
    (validateKey (generateKey emptyStore "k0" (some 0) 0).fst
      (generateKey emptyStore "k0" (some 0) 0).snd 0).fst = true := by
  decide

/-- C8 (amended): a credential issued with `expiresInDays` zero or negative
fails every `validate` call made strictly after the issuance instant (the
code treats expiry with a strict comparison, so at the exact issuance
instant a zero-TTL credential still validates). -/
theorem nonpositive_ttl_expired (s0 : KeyStore) (sfx : String)
    (ttl t now : Int) (httl : ttl ≤ 0) (hnow : t < now) :
    (validateKey (generateKey s0 sfx (some ttl) t).fst
      (generateKey s0 sfx (some ttl) t).snd now).fst = false := by
  have hgen : (generateKey s0 sfx (some ttl) t).fst (generateKey s0 sfx (some ttl) t).snd =
      some { createdAt := t, expiresAt := t + daysOf (some ttl) * dayLen,
             isActive := true, lastUsed := none, usageCount := 0 } :=
    storeSet_self ..
  have hmul : ttl * dayLen ≤ 0 := by
    calc ttl * dayLen ≤ 0 * dayLen := by
          exact mul_le_mul_of_nonneg_right httl (by norm_num [dayLen])
      _ = 0 := by ring
  refine validateKey_expired _ _ _ _ hgen rfl ?_
  show t + daysOf (some ttl) * dayLen < now
  simp only [daysOf]
  omega

/-- C8 witness for the amended claim: a key issued at time 0 with TTL 0 fails
validation at time 1. -/
theorem nonpositive_ttl_expired_witness :
    (0 : Int) ≤ 0 ∧ (0 : Int) < 1 ∧
    (validateKey (generateKey emptyStore "k0" (some 0) 0).fst
      (generateKey emptyStore "k0" (some 0) 0).snd 1).fst = false :=
  ⟨by norm_num, by norm_num,
    nonpositive_ttl_expired emptyStore "k0" 0 0 1 (by norm_num) (by norm_num)⟩

/-- C9: `revoke` returns true exactly when the token exists (whatever its
active flag), deactivates an existing token, is idempotent (a second revoke
returns the same answer), and returns false on a never-issued token. -/
theorem revoke_spec (s : KeyStore) (tok : String) :
    ((revokeKey s tok).fst = true ↔ (s tok).isSome = true) ∧
    (∀ d, s tok = some d →
      (revokeKey s tok).snd tok = some { d with isActive := false }) ∧
    ((revokeKey (revokeKey s tok).snd tok).fst = (revokeKey s tok).fst) ∧
    (s tok = none → (revokeKey s tok).fst = false ∧ (revokeKey s tok).snd = s) := by
  cases h : s tok with
  | none =>
    refine ⟨?_, ?_, ?_, ?_⟩
    · simp [revokeKey, h]
    · intro d hd
      exact Option.noConfusion hd
    · simp [revokeKey, h]
    · intro _
      exact ⟨by simp [revokeKey, h], by simp [revokeKey, h]⟩
  | some d =>
    refine ⟨?_, ?_, ?_, ?_⟩
    · simp [revokeKey, h]
    · intro d' hd'
      injection hd' with h2
      subst h2
      simp [revokeKey, h, storeSet_self]
    · simp [revokeKey, h, storeSet_self]
    · intro hn
      exact Option.noConfusion hn

/-- A sample credential used by the concrete witnesses below. -/
def dOld : KeyData :=
  { createdAt := 0, expiresAt := 100, isActive := true,
    lastUsed := none, usageCount := 0 }

/-- A sample one-credential store used by the concrete witnesses below. -/
def s1 : KeyStore := storeSet emptyStore "bua_old" dOld

/-- C9 witness: in the one-key store, revoking the existing key succeeds,
revoking it again still succeeds, and revoking a never-issued key fails. -/
theorem revoke_spec_witness :
    (s1 "bua_old").isSome = true ∧ (revokeKey s1 "bua_old").fst = true ∧
    (revokeKey (revokeKey s1 "bua_old").snd "bua_old").fst = true ∧
    (revokeKey s1 "bua_missing").fst = false := by
  have h := revoke_spec s1 "bua_old"
  have hm := revoke_spec s1 "bua_missing"
  refine ⟨by decide, h.1.mpr (by decide), ?_, ?_⟩
  · rw [h.2.2.1, h.1]
    decide
  · exact (hm.2.2.2 (by decide)).1

/-- C5: `rotate(old)` returns a new credential exactly when `validate(old)`
succeeds at that moment; on success the returned key is freshly created
(present afterwards, absent before, no other token added or removed),
`validate(old)` is false immediately after, and `validate(new)` is true
immediately after; on failure nothing is returned and no credential is
created. -/
theorem rotate_spec (s : KeyStore) (oldKey sfx : String) (now : Int)
    (hfresh : s ("bua_" ++ sfx) = none) :
    ((validateKey s oldKey now).fst = true →
      (rotateKey s oldKey sfx now).fst = some ("bua_" ++ sfx) ∧
      (validateKey (rotateKey s oldKey sfx now).snd oldKey now).fst = false ∧
      (validateKey (rotateKey s oldKey sfx now).snd ("bua_" ++ sfx) now).fst = true ∧
      ((rotateKey s oldKey sfx now).snd ("bua_" ++ sfx)).isSome = true ∧
      (∀ k, k ≠ "bua_" ++ sfx →
        ((rotateKey s oldKey sfx now).snd k).isSome = (s k).isSome)) ∧
    ((validateKey s oldKey now).fst = false →
      (rotateKey s oldKey sfx now).fst = none ∧
      (∀ k, ((rotateKey s oldKey sfx now).snd k).isSome = (s k).isSome)) := by
  constructor
  · intro hvalid
    obtain ⟨d, hd, hact, hexp⟩ := (validate_fails_closed s oldKey now).mp hvalid
    have hne : oldKey ≠ "bua_" ++ sfx := by
      intro hkeq
      rw [hkeq, hfresh] at hd
      cases hd
    obtain ⟨hvfst, hvsnd⟩ := validateKey_success_step s oldKey now d hd hact hexp
    have hrot : rotateKey s oldKey sfx now =
        (some ("bua_" ++ sfx),
          (revokeKey (generateKey (validateKey s oldKey now).snd sfx (some 30) now).fst
            oldKey).snd) := by
      unfold rotateKey
      simp only [hvfst, if_true]
      rfl
    have hg : (generateKey (validateKey s oldKey now).snd sfx (some 30) now).fst =
        storeSet (validateKey s oldKey now).snd ("bua_" ++ sfx)
          { createdAt := now, expiresAt := now + daysOf (some 30) * dayLen,
            isActive := true, lastUsed := none, usageCount := 0 } := rfl
    have hglook : (generateKey (validateKey s oldKey now).snd sfx (some 30) now).fst oldKey =
        some { d with lastUsed := some now, usageCount := d.usageCount + 1 } := by
      rw [hg, storeSet_ne _ _ _ _ hne, hvsnd, storeSet_self]
    have hrev : (revokeKey (generateKey (validateKey s oldKey now).snd sfx (some 30) now).fst
        oldKey).snd =
        storeSet (generateKey (validateKey s oldKey now).snd sfx (some 30) now).fst oldKey
          { d with lastUsed := some now, usageCount := d.usageCount + 1, isActive := false } := by
      unfold revokeKey
      rw [hglook]
    have hnewlook : (revokeKey (generateKey (validateKey s oldKey now).snd sfx (some 30) now).fst
        oldKey).snd ("bua_" ++ sfx) =
        some { createdAt := now, expiresAt := now + daysOf (some 30) * dayLen,
               isActive := true, lastUsed := none, usageCount := 0 } := by
      rw [hrev, storeSet_ne _ _ _ _ (Ne.symm hne), hg, storeSet_self]
    refine ⟨by rw [hrot], ?_, ?_, ?_, ?_⟩
    · rw [hrot]
      have hl : (revokeKey (generateKey (validateKey s oldKey now).snd sfx (some 30) now).fst
          oldKey).snd oldKey =
          some { d with lastUsed := some now, usageCount := d.usageCount + 1, isActive := false } := by
        rw [hrev, storeSet_self]
      exact validateKey_inactive _ _ _ _ hl rfl
    · rw [hrot]
      refine (validate_fails_closed _ _ _).mpr ⟨_, hnewlook, rfl, ?_⟩
      show now ≤ now + daysOf (some 30) * dayLen
      have h30 : (0 : Int) ≤ daysOf (some 30) * dayLen := by norm_num [daysOf, dayLen]
      omega
    · rw [hrot]
      simp only
      rw [hnewlook]
      rfl
    · intro k hk
      rw [hrot]
      simp only
      by_cases hko : k = oldKey
      · subst hko
        rw [hrev, storeSet_self, hd]
        rfl
      · rw [hrev, storeSet_ne _ _ _ _ hko, hg, storeSet_ne _ _ _ _ hk, hvsnd,
          storeSet_ne _ _ _ _ hko]
  · intro hfail
    unfold rotateKey
    simp only [hfail, Bool.false_eq_true, if_false]
    exact ⟨by trivial, fun k => validateKey_snd_isSome s oldKey now k⟩

/-- C5 witness: in the one-key store, rotating the valid key at time 0 yields
the fresh key, after which the old key no longer validates and the new key
does. -/
theorem rotate_spec_witness :
    (s1 ("bua_" ++ "new") = none) ∧
    ((validateKey s1 "bua_old" 0).fst = true) ∧
    ((rotateKey s1 "bua_old" "new" 0).fst = some ("bua_" ++ "new")) ∧
    ((validateKey (rotateKey s1 "bua_old" "new" 0).snd "bua_old" 0).fst = false) ∧
    ((validateKey (rotateKey s1 "bua_old" "new" 0).snd ("bua_" ++ "new") 0).fst = true) := by
  have h := (rotate_spec s1 "bua_old" "new" 0 (by decide)).1 (by decide)
  exact ⟨by decide, by decide, h.1, h.2.1, h.2.2.1⟩

/-- C10: any credential returned by a successful rotation carries the default
30-day horizon measured from the rotation instant, whatever the old
credential had. -/
theorem rotate_default_ttl (s : KeyStore) (oldKey sfx : String) (now : Int)
    (newKey : String) (h : (rotateKey s oldKey sfx now).fst = some newKey) :
    ∃ d, (rotateKey s oldKey sfx now).snd newKey = some d ∧
      d.createdAt = now ∧ d.expiresAt = d.createdAt + 30 * dayLen := by
  by_cases hv : (validateKey s oldKey now).fst = true
  · have hrot : rotateKey s oldKey sfx now =
        (some ("bua_" ++ sfx),
          (revokeKey (generateKey (validateKey s oldKey now).snd sfx (some 30) now).fst
            oldKey).snd) := by
      unfold rotateKey
      simp only [hv, if_true]
      rfl
    rw [hrot] at h
    have hnk : newKey = "bua_" ++ sfx := by
      injection h with h'
      exact h'.symm
    subst hnk
    have hg : (generateKey (validateKey s oldKey now).snd sfx (some 30) now).fst =
        storeSet (validateKey s oldKey now).snd ("bua_" ++ sfx)
          { createdAt := now, expiresAt := now + daysOf (some 30) * dayLen,
            isActive := true, lastUsed := none, usageCount := 0 } := rfl
    have hgself : (generateKey (validateKey s oldKey now).snd sfx (some 30) now).fst
        ("bua_" ++ sfx) =
        some { createdAt := now, expiresAt := now + daysOf (some 30) * dayLen,
               isActive := true, lastUsed := none, usageCount := 0 } := by
      rw [hg, storeSet_self]
    rw [hrot]
    simp only
    cases hlook : (generateKey (validateKey s oldKey now).snd sfx (some 30) now).fst oldKey with
    | none =>
      have hsnd : (revokeKey (generateKey (validateKey s oldKey now).snd sfx (some 30) now).fst
          oldKey).snd =
          (generateKey (validateKey s oldKey now).snd sfx (some 30) now).fst := by
        unfold revokeKey
        rw [hlook]
      rw [hsnd, hgself]
      exact ⟨_, rfl, rfl, by norm_num [daysOf]⟩
    | some dPrev =>
      have hsnd : (revokeKey (generateKey (validateKey s oldKey now).snd sfx (some 30) now).fst
          oldKey).snd =
          storeSet (generateKey (validateKey s oldKey now).snd sfx (some 30) now).fst oldKey
            { dPrev with isActive := false } := by
        unfold revokeKey
        rw [hlook]
      by_cases hko : ("bua_" ++ sfx) = oldKey
      · have hdp : dPrev =
            { createdAt := now, expiresAt := now + daysOf (some 30) * dayLen,
              isActive := true, lastUsed := none, usageCount := 0 } := by
          rw [hko] at hgself
          rw [hgself] at hlook
          injection hlook with h2
          exact h2.symm
        rw [hsnd, ← hko, storeSet_self, hdp]
        exact ⟨_, rfl, rfl, by norm_num [daysOf]⟩
      · rw [hsnd, storeSet_ne _ _ _ _ hko, hgself]
        exact ⟨_, rfl, rfl, by norm_num [daysOf]⟩
  · exfalso
    have hv2 : (validateKey s oldKey now).fst = false := by
      cases hb : (validateKey s oldKey now).fst
      · rfl
      · exact absurd hb hv
    have hrot : rotateKey s oldKey sfx now = (none, (validateKey s oldKey now).snd) := by
      unfold rotateKey
      simp only [hv2, Bool.false_eq_true, if_false]
    rw [hrot] at h
    cases h

/-- C10 witness: rotating the sample valid key at time 0 yields a credential
expiring exactly 30 days after its creation instant. -/
theorem rotate_default_ttl_witness :
    ((rotateKey s1 "bua_old" "new" 0).fst = some ("bua_" ++ "new")) ∧
    (((rotateKey s1 "bua_old" "new" 0).snd ("bua_" ++ "new")).map KeyData.createdAt =
      some 0) ∧
    (((rotateKey s1 "bua_old" "new" 0).snd ("bua_" ++ "new")).map KeyData.expiresAt =
      some (30 * dayLen)) := by
  obtain ⟨d, hd, hc, he⟩ :=
    rotate_default_ttl s1 "bua_old" "new" 0 ("bua_" ++ "new") (by decide)
  refine ⟨by decide, ?_, ?_⟩
  · rw [hd]
    simp [hc]
  · rw [hd]
    simp [he, hc]

/-! ### Task orchestration (`api_service.py`)

`execute_task` is a Python `try/except/finally`. The external collaborators
(config loader, `get_llm_model`, `CustomBrowser`, `browser.new_context`,
agent construction plus `agent.run` plus result transcription) are modelled
by an environment record carrying each step outcome, `Except` for a step
that may raise. The locals `config_dict`, `browser` and `browser_context`
are only assigned when their step succeeds; the `finally` block reads them,
and reading an unassigned local raises `UnboundLocalError` in Python — the
embedding tracks which locals are bound on each path. The float-valued
`llm_temperature` option is not modelled (floating point). -/

/-- The effective configuration dictionary, restricted to the string, integer
and boolean entries `execute_task` reads. Absent dictionary keys are `none`,
matching `config_dict.get`. -/
structure Config where
  llmProvider : Option String
  llmModelName : Option String
  llmBaseUrl : Option String
  llmApiKey : Option String
  maxSteps : Option Int
  maxActionsPerStep : Option Int
  useVision : Option Bool
  headless : Option Bool
  disableSecurity : Option Bool
  chromePath : Option String
  windowW : Int
  windowH : Int
  saveTracePath : Option String
  saveRecordingPath : Option String
  enableRecording : Option Bool
  keepBrowserOpen : Option Bool
  saveAgentHistoryPath : Option String
  toolCallInContent : Option Bool
deriving Repr, DecidableEq

/-- The body of `POST /tasks` (`TaskRequest` in the source). -/
structure TaskRequest where
  task : String
  addInfos : Option String
  configFile : Option String
  llmModelName : Option String
  llmProvider : Option String
  llmBaseUrl : Option String
  llmApiKey : Option String
  maxSteps : Option Int
  maxActionsPerStep : Option Int
  useVision : Option Bool
  headless : Option Bool
deriving Repr, DecidableEq

/-- `config.update(config_updates)`: overwrite each entry for which the
request supplied a non-null value. -/
def applyOverrides (c : Config) (r : TaskRequest) : Config :=
  { c with
    llmModelName := r.llmModelName <|> c.llmModelName,
    llmProvider := r.llmProvider <|> c.llmProvider,
    llmBaseUrl := r.llmBaseUrl <|> c.llmBaseUrl,
    llmApiKey := r.llmApiKey <|> c.llmApiKey,
    maxSteps := r.maxSteps <|> c.maxSteps,
    maxActionsPerStep := r.maxActionsPerStep <|> c.maxActionsPerStep,
    useVision := r.useVision <|> c.useVision,
    headless := r.headless <|> c.headless }

/-- What `load_config_from_file` hands back when it does not raise: a
dictionary, an error string (its documented error convention), or a value of
some other shape. -/
inductive LoadedVal where
  | dict (c : Config)
  | str (s : String)
  | other
deriving Repr, DecidableEq

/-- A Python value appearing in an engine result: a dictionary together with
its `json.dumps` rendering, or anything else together with its `str`
rendering. -/
inductive PyVal where
  | dict (dumps : String)
  | text (s : String)
deriving Repr, DecidableEq

/-- `json.dumps(x) if isinstance(x, dict) else str(x)`. -/
def serializeVal : PyVal → String
  | .dict d => d
  | .text s => s

/-- An engine trace as `execute_task` sees it: a list of items, or a single
value of some other shape together with its `str` rendering. -/
inductive PySeq where
  | list (l : List PyVal)
  | other (s : String)
deriving Repr, DecidableEq

/-- `"\n".join(serialize(item) for item in xs) if isinstance(xs, list) else
str(xs)`. -/
def transcribeSeq : PySeq → String
  | .list l => String.intercalate "\n" (l.map serializeVal)
  | .other s => s

/-- The parts of the agent run history that `execute_task` transcribes. -/
structure RunHistory where
  finalResult : PyVal
  errors : PySeq
  modelActions : PySeq
  modelThoughts : PySeq
  agentId : String
deriving Repr, DecidableEq

/-- Task record status values stored in `tasks_store[task_id]['status']`. -/
inductive TaskStatus where
  | pending
  | completed
  | failed
deriving Repr, DecidableEq

/-- One entry of `tasks_store`: the task record. -/
structure TaskRecord where
  status : TaskStatus
  createdAt : Int
  finalResult : Option String
  errors : Option String
  modelActions : Option String
  modelThoughts : Option String
  recordingPath : Option String
  traceFile : Option String
  historyFile : Option String
  config : Option Config
deriving Repr, DecidableEq

/-- The record inserted by `create_task` before scheduling the execution
unit: `status = pending`, every result field null. -/
def initialRecord (now : Int) : TaskRecord :=
  { status := .pending, createdAt := now, finalResult := none, errors := none,
    modelActions := none, modelThoughts := none, recordingPath := none,
    traceFile := none, historyFile := none, config := none }

/-- `create_task`: insert a fresh pending record under the generated id and
return the id (the execution unit is scheduled separately). -/
def createTask (store : String → Option TaskRecord) (freshId : String)
    (now : Int) : (String → Option TaskRecord) × String :=
  (fun k => if k = freshId then some (initialRecord now) else store k, freshId)

/-- Outcomes of the external collaborator calls made by one run of
`execute_task`; `Except.error e` stands for the step raising an exception
whose description is `e`. -/
structure Env where
  loadConfig : Except String LoadedVal
  defaultCfg : Config
  llm : Except String Unit
  newBrowser : Except String Unit
  newContext : Except String Unit
  agentRun : Except String RunHistory
deriving Repr

/-- Step 1 of `execute_task`: load the base configuration. A named config
file whose loader returns a string raises
`ValueError("Failed to load config file: ...")`; a non-dictionary value
raises `ValueError("Invalid configuration format")`; no named file means the
built-in `default_config()`. -/
def resolveConfig (env : Env) (req : TaskRequest) : Except String Config :=
  match req.configFile with
  | some _ =>
    match env.loadConfig with
    | .error e => .error e
    | .ok (.str s) => .error ("Failed to load config file: " ++ s)
    | .ok (.dict c) => .ok c
    | .ok .other => .error "Invalid configuration format"
  | none => .ok env.defaultCfg

/-- The `except` branch: `tasks_store[task_id].update({'status': 'failed',
'errors': str(e)})` — only those two fields change. -/
def failRec (r : TaskRecord) (e : String) : TaskRecord :=
  { r with status := .failed, errors := some e }

/-- The success-path update: transcribe the run history and the effective
configuration into the record and set `status = 'completed'`. -/
def completeRec (r : TaskRecord) (cfg : Config) (h : RunHistory) : TaskRecord :=
  { r with
    status := .completed,
    finalResult := some (serializeVal h.finalResult),
    errors := some (transcribeSeq h.errors),
    modelActions := some (transcribeSeq h.modelActions),
    modelThoughts := some (transcribeSeq h.modelThoughts),
    recordingPath :=
      if (cfg.enableRecording.getD false) then cfg.saveRecordingPath else none,
    traceFile := cfg.saveTracePath,
    historyFile := some ((cfg.saveAgentHistoryPath.getD "tmp/agent_history")
      ++ "/" ++ h.agentId ++ ".json"),
    config := some cfg }

/-- The observable outcome of one `execute_task` run: the final record, the
exception (if any) escaping the unit, and how many times each engine
resource was released. -/
structure ExecOutcome where
  record : TaskRecord
  escaped : Option String
  contextCloseCount : Nat
  browserCloseCount : Nat
deriving Repr, DecidableEq

/-- The `finally` block. `cfgOpt` is the local `config_dict` when it was
assigned; `browserBound` / `contextBound` say whether the locals `browser` /
`browser_context` were assigned. Reading an unassigned local raises
`UnboundLocalError`, so: with `config_dict` unassigned the guard itself
raises; with it assigned and `keep_browser_open` falsy, `if browser_context:`
raises when `browser_context` is unassigned — skipping `browser.close()` —
and otherwise both objects (truthy Python instances) are closed in order. -/
def runFinally (cfgOpt : Option Config) (browserBound contextBound : Bool)
    (r : TaskRecord) : ExecOutcome :=
  match cfgOpt with
  | none =>
    { record := r, escaped := some "UnboundLocalError: config_dict",
      contextCloseCount := 0, browserCloseCount := 0 }
  | some cfg =>
    if cfg.keepBrowserOpen.getD false then
      { record := r, escaped := none, contextCloseCount := 0, browserCloseCount := 0 }
    else
      match contextBound, browserBound with
      | false, _ =>
        { record := r, escaped := some "UnboundLocalError: browser_context",
          contextCloseCount := 0, browserCloseCount := 0 }
      | true, false =>
        { record := r, escaped := some "UnboundLocalError: browser",
          contextCloseCount := 1, browserCloseCount := 0 }
      | true, true =>
        { record := r, escaped := none, contextCloseCount := 1, browserCloseCount := 1 }

/-- One run of the execution unit `execute_task`, acting on the task's
record `r0`. Each `match` arm mirrors the point of `execute_task` at which
the corresponding collaborator call can raise, with exactly the locals bound
at that point. -/
def executeTask (env : Env) (req : TaskRequest) (r0 : TaskRecord) : ExecOutcome :=
  match resolveConfig env req with
  | .error e => runFinally none false false (failRec r0 e)
  | .ok cfg0 =>
    let cfg := applyOverrides cfg0 req
    match env.llm with
    | .error e => runFinally (some cfg) false false (failRec r0 e)
    | .ok _ =>
      match env.newBrowser with
      | .error e => runFinally (some cfg) false false (failRec r0 e)
      | .ok _ =>
        match env.newContext with
        | .error e => runFinally (some cfg) true false (failRec r0 e)
        | .ok _ =>
          match env.agentRun with
          | .error e => runFinally (some cfg) true true (failRec r0 e)
          | .ok hist => runFinally (some cfg) true true (completeRec r0 cfg hist)

/-- The per-record transition relation of the orchestrator: `create_task`
inserts the pending record, and the execution unit — scheduled exactly once
by `create_task`, immediately after the insert, hence starting from the
pending record — applies its one terminal update. -/
inductive RecStep : Option TaskRecord → Option TaskRecord → Prop where
  | create (now : Int) : RecStep none (some (initialRecord now))
  | execute (env : Env) (req : TaskRequest) (r : TaskRecord)
      (hp : r.status = .pending) :
      RecStep (some r) (some (executeTask env req r).record)

/-- The `finally` block never rewrites the record. -/
theorem runFinally_record (cfgOpt : Option Config) (bb cb : Bool)
    (r : TaskRecord) : (runFinally cfgOpt bb cb r).record = r := by
  unfold runFinally
  cases cfgOpt with
  | none => rfl
  | some cfg =>
    by_cases hk : cfg.keepBrowserOpen.getD false
    · simp [hk]
    · simp only [hk, Bool.false_eq_true, if_false]
      cases cb <;> cases bb <;> rfl

/-- Every run of the execution unit ends with a terminal status. -/
theorem executeTask_terminal (env : Env) (req : TaskRequest) (r0 : TaskRecord) :
    (executeTask env req r0).record.status = .completed ∨
    (executeTask env req r0).record.status = .failed := by
  unfold executeTask
  cases resolveConfig env req with
  | error e => right; rw [runFinally_record]; rfl
  | ok cfg0 =>
    cases env.llm with
    | error e => right; rw [runFinally_record]; rfl
    | ok _ =>
      cases env.newBrowser with
      | error e => right; rw [runFinally_record]; rfl
      | ok _ =>
        cases env.newContext with
        | error e => right; rw [runFinally_record]; rfl
        | ok _ =>
          cases env.agentRun with
          | error e => right; rw [runFinally_record]; rfl
          | ok hist => left; rw [runFinally_record]; rfl

/-- A sample effective configuration: the relevant defaults of
`default_config()` (recording disabled, browser not kept open). -/
def cfgDefault : Config :=
  { llmProvider := some "openai", llmModelName := some "gpt-4", llmBaseUrl := none,
    llmApiKey := none, maxSteps := some 100, maxActionsPerStep := some 10,
    useVision := some true, headless := some true, disableSecurity := none,
    chromePath := none, windowW := 1280, windowH := 720, saveTracePath := none,
    saveRecordingPath := none, enableRecording := none, keepBrowserOpen := none,
    saveAgentHistoryPath := none, toolCallInContent := none }

/-- A sample successful run history. -/
def histSample : RunHistory :=
  { finalResult := .text "ok", errors := .list [], modelActions := .list [],
    modelThoughts := .list [], agentId := "agent-1" }

/-- A sample request with no named config file and no overrides. -/
def reqNoFile : TaskRequest :=
  { task := "open example.com", addInfos := some "", configFile := none,
    llmModelName := none, llmProvider := none, llmBaseUrl := none,
    llmApiKey := none, maxSteps := none, maxActionsPerStep := none,
    useVision := none, headless := none }

/-- The same request naming a config file. -/
def reqWithFile : TaskRequest := { reqNoFile with configFile := some "custom.json" }

/-- An environment in which every collaborator call succeeds. -/
def envOk : Env :=
  { loadConfig := .ok (.dict cfgDefault), defaultCfg := cfgDefault,
    llm := .ok (), newBrowser := .ok (), newContext := .ok (),
    agentRun := .ok histSample }

/-- An environment whose config loader reports an error string. -/
def envLoadFail : Env := { envOk with loadConfig := .ok (.str "file not found") }

/-- An environment in which `browser.new_context` raises after the browser
was constructed. -/
def envContextFail : Env := { envOk with newContext := .error "context creation failed" }

/-- C1: the claim says no exception escapes the execution unit. The code
violates this: when configuration resolution raises, the `except` branch
does set `status = failed` with the description in `errors`, but the
`finally` block then reads the never-assigned local `config_dict`, raising
an `UnboundLocalError` that escapes `execute_task`. This theorem evaluates
the unit at that failing input. -/
theorem execute_task_exception_escapes :
    ((executeTask envLoadFail reqWithFile (initialRecord 0)).record.status = .failed) ∧
    ((executeTask envLoadFail reqWithFile (initialRecord 0)).record.errors =
      some "Failed to load config file: file not found") ∧
    ((executeTask envLoadFail reqWithFile (initialRecord 0)).escaped =
      some "UnboundLocalError: config_dict") := by
  refine ⟨rfl, rfl, rfl⟩

/-- C2: the claim says browser context and browser are each released exactly
once on every exit path, even under partial acquisition. The code violates
this: when `browser.new_context` raises after the browser was constructed,
the `finally` block evaluates `if browser_context:` on the never-assigned
local, raising `UnboundLocalError` before reaching `browser.close()`, so the
acquired browser is released zero times. This theorem evaluates the unit at
that failing input. -/
theorem browser_leaked_on_partial_acquisition :
    ((executeTask envContextFail reqNoFile (initialRecord 0)).browserCloseCount = 0) ∧
    ((executeTask envContextFail reqNoFile (initialRecord 0)).contextCloseCount = 0) ∧
    ((executeTask envContextFail reqNoFile (initialRecord 0)).escaped =
      some "UnboundLocalError: browser_context") ∧
    ((executeTask envContextFail reqNoFile (initialRecord 0)).record.status = .failed) := by
  refine ⟨rfl, rfl, rfl, rfl⟩

/-- C4: a record is created pending with all result fields null; every run of
the execution unit ends it in `completed` or `failed`; and every mutating
step of the per-record transition relation starts from a pending record, so
no step leaves a terminal state. -/
theorem task_record_state_machine (now : Int) (env : Env) (req : TaskRequest)
    (r0 : TaskRecord) (a b : Option TaskRecord) (hstep : RecStep a b) :
    (initialRecord now).status = .pending ∧
    (initialRecord now).finalResult = none ∧ (initialRecord now).errors = none ∧
    (initialRecord now).modelActions = none ∧ (initialRecord now).modelThoughts = none ∧
    (initialRecord now).recordingPath = none ∧ (initialRecord now).traceFile = none ∧
    (initialRecord now).historyFile = none ∧ (initialRecord now).config = none ∧
    ((executeTask env req r0).record.status = .completed ∨
      (executeTask env req r0).record.status = .failed) ∧
    (∀ r1, a = some r1 → r1.status = .pending) := by
  refine ⟨rfl, rfl, rfl, rfl, rfl, rfl, rfl, rfl, rfl,
    executeTask_terminal env req r0, ?_⟩
  intro r1 ha
  cases hstep with
  | create now2 => exact Option.noConfusion ha
  | execute env2 req2 r2 hp =>
    injection ha with h2
    rw [← h2]
    exact hp

/-- C4 witness: instantiated at the creation step and the all-success
environment. -/
theorem task_record_state_machine_witness :
    (initialRecord 0).status = .pending ∧
    ((executeTask envOk reqNoFile (initialRecord 0)).record.status = .completed ∨
      (executeTask envOk reqNoFile (initialRecord 0)).record.status = .failed) := by
  obtain ⟨h1, h2, h3, h4, h5, h6, h7, h8, h9, h10, h11⟩ :=
    task_record_state_machine 0 envOk reqNoFile (initialRecord 0) none
      (some (initialRecord 0)) (RecStep.create 0)
  exact ⟨h1, h10⟩

/-- C6: a task naming a config file whose resolution fails ends `failed` with
a non-null `errors`, while every result field — including the stored
configuration — stays null; in particular the unit did not proceed with the
default configuration. -/
theorem config_resolution_failure_record (env : Env) (req : TaskRequest)
    (now : Int) (e : String) (_hf : req.configFile.isSome = true)
    (h : resolveConfig env req = Except.error e) :
    ((executeTask env req (initialRecord now)).record.status = .failed) ∧
    ((executeTask env req (initialRecord now)).record.errors = some e) ∧
    ((executeTask env req (initialRecord now)).record.finalResult = none) ∧
    ((executeTask env req (initialRecord now)).record.modelActions = none) ∧
    ((executeTask env req (initialRecord now)).record.modelThoughts = none) ∧
    ((executeTask env req (initialRecord now)).record.recordingPath = none) ∧
    ((executeTask env req (initialRecord now)).record.traceFile = none) ∧
    ((executeTask env req (initialRecord now)).record.historyFile = none) ∧
    ((executeTask env req (initialRecord now)).record.config = none) := by
  have hrec : (executeTask env req (initialRecord now)).record =
      failRec (initialRecord now) e := by
    unfold executeTask
    rw [h]
    exact runFinally_record ..
  rw [hrec]
  exact ⟨rfl, rfl, rfl, rfl, rfl, rfl, rfl, rfl, rfl⟩

/-- C6 witness: the config-loader-failure environment with a named file. -/
theorem config_resolution_failure_record_witness :
    (reqWithFile.configFile.isSome = true) ∧
    ((executeTask envLoadFail reqWithFile (initialRecord 0)).record.status = .failed) ∧
    ((executeTask envLoadFail reqWithFile (initialRecord 0)).record.errors =
      some "Failed to load config file: file not found") ∧
    ((executeTask envLoadFail reqWithFile (initialRecord 0)).record.finalResult = none) ∧
    ((executeTask envLoadFail reqWithFile (initialRecord 0)).record.config = none) := by
  obtain ⟨h1, h2, h3, h4, h5, h6, h7, h8, h9⟩ :=
    config_resolution_failure_record envLoadFail reqWithFile 0
      "Failed to load config file: file not found" rfl rfl
  exact ⟨rfl, h1, h2, h3, h9⟩

end BUApi
